import Mathlib

/-!
Verification of the authentication core (`server/src/auth/auth.service.ts`).

The service is embedded shallowly:

* the TypeORM `users` table becomes a `List User` threaded through every
  operation, `findOne` becomes `List.find?`, and a `save` of an entity that
  was loaded from the table becomes an id-keyed in-place replacement;
* `bcrypt.hash` / `bcrypt.compare` are abstract function parameters
  (`hash`, `compare`);
* JWT signing is abstracted by a `TokenEnv` carrying the pair of freshly
  signed token strings and the expiry computed by
  `calculateRefreshTokenExpiry`; JWT verification
  (`refreshJwtService.verify`) is an abstract parameter `verify`;
* `Date` values become `Nat` timestamps, with the current time `now` passed
  explicitly;
* thrown Nest exceptions become `Except AuthError` results, and operations
  that can mutate the table return the new table next to the result.

JavaScript string primitives (`toLowerCase`, `trim`, `length`, `includes`)
are modelled by executable Lean functions over the character list, adequate
for the ASCII data handled here.
-/

namespace Auth

/-- Model of JavaScript `String.prototype.toLowerCase` (ASCII-adequate). -/
def jsToLower (s : String) : String := ⟨s.data.map Char.toLower⟩

/-- Model of JavaScript `String.prototype.trim`: drop leading and trailing
whitespace. -/
def jsTrim (s : String) : String :=
  ⟨((s.data.dropWhile Char.isWhitespace).reverse.dropWhile Char.isWhitespace).reverse⟩

/-- The `users` entity of `user.entity.ts`.  `password` stores the bcrypt
hash (the spec calls this field `passwordHash`); `refreshToken` and
`refreshTokenExpiresAt` are the nullable session columns. -/
structure User where
  id : String
  email : String
  password : String
  name : String
  refreshToken : Option String
  refreshTokenExpiresAt : Option Nat
  createdAt : Nat
deriving Repr, DecidableEq

/-- The user table, the sole shared mutable state of the service. -/
abbrev Db := List User

/-- The Nest exception taxonomy used by `auth.service.ts`
(`BadRequestException`, `UnauthorizedException`, `ConflictException`,
`NotFoundException`, `InternalServerErrorException`).  The spec maps
`badRequest` to `InvalidInput`.  `notFound` is never thrown by the service
but belongs to the taxonomy so that claims about it are statable. -/
inductive AuthError
  | badRequest (msg : String)
  | unauthorized (msg : String)
  | conflict (msg : String)
  | notFound (msg : String)
  | internalError (msg : String)
deriving Repr, DecidableEq

/-- The shape produced by the destructuring
`const \x7b password: _, ...userWithoutPassword \x7d = user` in `register`,
`validateUser` and `findById`: only `password` is removed. -/
structure UserWithoutPassword where
  id : String
  email : String
  name : String
  refreshToken : Option String
  refreshTokenExpiresAt : Option Nat
  createdAt : Nat
deriving Repr, DecidableEq

/-- The shape produced by the destructuring
`const \x7b password: _, refreshToken: __, ...userWithoutSensitive \x7d = user`
in `login` and `updateUser`: `password` and `refreshToken` are removed but
`refreshTokenExpiresAt` remains. -/
structure UserWithoutSensitive where
  id : String
  email : String
  name : String
  refreshTokenExpiresAt : Option Nat
  createdAt : Nat
deriving Repr, DecidableEq

/-- Drop the `password` field only (`register`, `validateUser`, `findById`). -/
def User.withoutPassword (u : User) : UserWithoutPassword :=
  ⟨u.id, u.email, u.name, u.refreshToken, u.refreshTokenExpiresAt, u.createdAt⟩

/-- Drop the `password` and `refreshToken` fields (`login`, `updateUser`). -/
def User.withoutSensitive (u : User) : UserWithoutSensitive :=
  ⟨u.id, u.email, u.name, u.refreshTokenExpiresAt, u.createdAt⟩

/-- Modelled from the spec: a "sanitized user" is the user with
`passwordHash`, `refreshToken` and `refreshTokenExpiresAt` all omitted.
Used to compare the spec's sanitization contract with what the code
actually returns. -/
structure SanitizedUser where
  id : String
  email : String
  name : String
  createdAt : Nat
deriving Repr, DecidableEq

/-- Modelled from the spec: project a user onto its sanitized fields. -/
def sanitizeSpec (u : User) : SanitizedUser :=
  ⟨u.id, u.email, u.name, u.createdAt⟩

/-- The `\x7b access_token, refresh_token \x7d` pair produced by
`generateTokens` and returned by `refreshAccessToken`. -/
structure Tokens where
  access_token : String
  refresh_token : String
deriving Repr, DecidableEq

/-- The successful result of `login`. -/
structure LoginResult where
  access_token : String
  refresh_token : String
  user : UserWithoutSensitive
deriving Repr, DecidableEq

/-- The successful result of `register`. -/
structure RegisterResult where
  user : UserWithoutPassword
deriving Repr, DecidableEq

/-- Abstraction of the JWT signing side of one call: `newAccess` and
`newRefresh` are the strings produced by `jwtService.sign` and
`refreshJwtService.sign` inside `generateTokens`, and `newExpiry` is the
timestamp produced by `calculateRefreshTokenExpiry`. -/
structure TokenEnv where
  newAccess : String
  newRefresh : String
  newExpiry : Nat
deriving Repr, DecidableEq

/-- The error classes thrown by `refreshJwtService.verify`, as discriminated
by `error.name` in `refreshAccessToken`. -/
inductive VerifyError
  | tokenExpired
  | jsonWebTokenError
  | other
deriving Repr, DecidableEq

/-- The message `refreshAccessToken` attaches to the `UnauthorizedException`
for each verification error class. -/
def VerifyError.message : VerifyError → String
  | .tokenExpired => "Refresh token has expired"
  | .jsonWebTokenError => "Invalid refresh token format"
  | .other => "Invalid or expired refresh token"

/-- The decoded refresh-token payload `\x7b sub, type \x7d` extracted in
`refreshAccessToken`; `type` may be absent. -/
structure RefreshPayload where
  sub : String
  type : Option String
deriving Repr, DecidableEq

/-- Model of `userRepository.save(user)` for an entity previously loaded from the
table: the row with the same `id` is overwritten. -/
def saveUser (db : Db) (u : User) : Db :=
  db.map fun v => if v.id = u.id then u else v

/-- The field assignments `user.refreshToken = tk;
user.refreshTokenExpiresAt = expiry` performed before a save in `login`
and `refreshAccessToken`. -/
def User.withSession (u : User) (tk : String) (expiry : Nat) : User :=
  { u with refreshToken := some tk, refreshTokenExpiresAt := some expiry }

/-- The field assignments `user.refreshToken = null;
user.refreshTokenExpiresAt = null` performed on the expired path of
`refreshAccessToken` and by `revokeRefreshToken`. -/
def User.clearSession (u : User) : User :=
  { u with refreshToken := none, refreshTokenExpiresAt := none }

/-- The fixed dummy hash compared on the user-not-found path of
`validateUser` and `login`. -/
def dummyHash : String := "$2b$10$dummyhashforsecurity"

/-- The user entity built and inserted by `register` after all validation
has passed: email normalized, password hashed, name trimmed, session
columns absent. -/
def mkRegisteredUser (hash : String → String) (newId : String) (now : Nat)
    (email password name : String) : User :=
  { id := newId
    email := jsTrim (jsToLower email)
    password := hash password
    name := jsTrim name
    refreshToken := none
    refreshTokenExpiresAt := none
    createdAt := now }

/-- Model of `AuthService.register`.  `hash` stands for `bcrypt.hash(·, 10)`,
`newId` for the generated uuid and `now` for the insertion timestamp.
Mirrors the source order: required-fields check, email normalization and
length check, duplicate lookup, password-length check, then insertion.
The source performs no validation of the name beyond the falsiness check. -/
def register (hash : String → String) (newId : String) (now : Nat) (db : Db)
    (email password name : String) : Db × Except AuthError RegisterResult :=
  if email = "" ∨ password = "" ∨ name = "" then
    (db, .error (.badRequest "Email, password, and name are required"))
  else
    let normalizedEmail := jsTrim (jsToLower email)
    if normalizedEmail = "" ∨ normalizedEmail.length < 3 then
      (db, .error (.badRequest "Invalid email format"))
    else
      match db.find? fun u => u.email == normalizedEmail with
      | some _ => (db, .error (.conflict "User with this email already exists"))
      | none =>
        if password.length < 8 then
          (db, .error (.badRequest "Password must be at least 8 characters long"))
        else
          (db ++ [mkRegisteredUser hash newId now email password name],
           .ok ⟨(mkRegisteredUser hash newId now email password name).withoutPassword⟩)

/-- Model of `AuthService.validateUser`.  `compare` stands for `bcrypt.compare`.
Besides the result, the returned list records every bcrypt comparison
performed, as (password, hash) pairs, so that the timing-mitigation
behaviour is observable: the not-found path still compares the supplied
password against `dummyHash`. -/
def validateUser (compare : String → String → Bool) (db : Db)
    (email password : String) :
    Option UserWithoutPassword × List (String × String) :=
  if email = "" ∨ password = "" then
    (none, [])
  else
    match db.find? fun u => u.email == jsTrim (jsToLower email) with
    | none => (none, [(password, dummyHash)])
    | some user =>
      if compare password user.password then
        (some user.withoutPassword, [(password, user.password)])
      else
        (none, [(password, user.password)])

/-- Model of `AuthService.login`.  Source order: required-fields check, lookup by
normalized email (dummy comparison and generic `Unauthorized` on miss),
password comparison (generic `Unauthorized` on mismatch), `generateTokens`
(whose guard rejects an empty id or email), then the stored refresh token
and expiry are overwritten and the updated user, stripped of `password`
and `refreshToken`, is returned with the token pair. -/
def login (compare : String → String → Bool) (tenv : TokenEnv) (db : Db)
    (email password : String) : Db × Except AuthError LoginResult :=
  if email = "" ∨ password = "" then
    (db, .error (.badRequest "Email and password are required"))
  else
    match db.find? fun u => u.email == jsTrim (jsToLower email) with
    | none => (db, .error (.unauthorized "Invalid email or password"))
    | some user =>
      if compare password user.password then
        if user.id = "" ∨ user.email = "" then
          (db, .error (.internalError "Invalid user data for token generation"))
        else
          (saveUser db (user.withSession tenv.newRefresh tenv.newExpiry),
           .ok ⟨tenv.newAccess, tenv.newRefresh,
                (user.withSession tenv.newRefresh tenv.newExpiry).withoutSensitive⟩)
      else
        (db, .error (.unauthorized "Invalid email or password"))

/-- Model of `AuthService.refreshAccessToken`.  Source order: emptiness check on the
raw token, JWT verification of the trimmed token, payload checks
(`sub` present, `type === 'refresh'`), lookup of the user storing exactly
this token value, stored-expiry check (the source condition
`!user.refreshTokenExpiresAt || new Date() > user.refreshTokenExpiresAt`
appears as the two expired arms below, both of which clear the stored
entry before failing), subject match, `generateTokens` guard, rotation of
the stored token, and return of the new pair. -/
def refreshAccessToken (verify : String → Except VerifyError RefreshPayload)
    (now : Nat) (tenv : TokenEnv) (db : Db) (refreshToken : String) :
    Db × Except AuthError Tokens :=
  if refreshToken = "" ∨ jsTrim refreshToken = "" then
    (db, .error (.badRequest "Refresh token is required"))
  else
    match verify (jsTrim refreshToken) with
    | .error e => (db, .error (.unauthorized e.message))
    | .ok payload =>
      if payload.sub = "" then
        (db, .error (.unauthorized "Invalid token payload"))
      else if payload.type ≠ some "refresh" then
        (db, .error (.unauthorized "Invalid token type"))
      else
        match db.find? fun u => u.refreshToken == some (jsTrim refreshToken) with
        | none =>
          (db, .error (.unauthorized "Refresh token has been revoked or does not exist"))
        | some user =>
          match user.refreshTokenExpiresAt with
          | none =>
            (saveUser db user.clearSession,
             .error (.unauthorized "Refresh token has expired"))
          | some exp =>
            if now > exp then
              (saveUser db user.clearSession,
               .error (.unauthorized "Refresh token has expired"))
            else if user.id ≠ payload.sub then
              (db, .error (.unauthorized "Token user mismatch - security violation"))
            else if user.id = "" ∨ user.email = "" then
              (db, .error (.internalError "Invalid user data for token generation"))
            else
              (saveUser db (user.withSession tenv.newRefresh tenv.newExpiry),
               .ok ⟨tenv.newAccess, tenv.newRefresh⟩)

/-- Model of `AuthService.revokeRefreshToken` (the logout mutation):
`userRepository.update(userId.trim(), \x7b refreshToken: null,
refreshTokenExpiresAt: null \x7d)` — an id-keyed update that clears both
session columns and succeeds whether or not a row matches. -/
def revokeRefreshToken (db : Db) (userId : String) :
    Db × Except AuthError Unit :=
  if userId = "" ∨ jsTrim userId = "" then
    (db, .error (.badRequest "User ID is required"))
  else
    (db.map fun u => if u.id = jsTrim userId then u.clearSession else u,
     .ok ())

/-- Model of `AuthService.findById` (the lookup behind `getProfile`): returns the
user stripped of `password` only, or `none`. -/
def findById (db : Db) (id : String) : Option UserWithoutPassword :=
  if id = "" ∨ jsTrim id = "" then none
  else
    match db.find? fun u => u.id == jsTrim id with
    | none => none
    | some u => some u.withoutPassword

/-- Model of `UpdateUserDto`: both fields optional; `none` models an absent key. -/
structure UpdateUserDto where
  email : Option String
  name : Option String
deriving Repr, DecidableEq

/-- The email branch of `updateUser`: reject an empty string, normalize,
validate shape (length ≥ 3 and containing a `@`), and when the normalized
email differs from the stored one lowercased, check uniqueness and update
the field. -/
def applyEmailUpdate (db : Db) (user : User) (email : Option String) :
    Except AuthError User :=
  match email with
  | none => .ok user
  | some e =>
    if e = "" then .error (.badRequest "Email must be a valid string")
    else
      let normalizedEmail := jsTrim (jsToLower e)
      if normalizedEmail.length < 3 ∨ ¬ normalizedEmail.data.contains '@' then
        .error (.badRequest "Invalid email format")
      else if normalizedEmail ≠ jsToLower user.email then
        match db.find? fun u => u.email == normalizedEmail with
        | some _ => .error (.conflict "Email is already taken")
        | none => .ok { user with email := normalizedEmail }
      else .ok user

/-- The name branch of `updateUser`: reject an empty string, trim, and
require at least 2 characters. -/
def applyNameUpdate (user : User) (name : Option String) :
    Except AuthError User :=
  match name with
  | none => .ok user
  | some n =>
    if n = "" then .error (.badRequest "Name cannot be empty")
    else
      let trimmedName := jsTrim n
      if trimmedName.length < 2 then
        .error (.badRequest "Name must be at least 2 characters long")
      else .ok { user with name := trimmedName }

/-- Model of `AuthService.updateUser`.  Source order: user-id check, empty-dto check
(`Object.keys(updateUserDto).length === 0`), lookup by id — failing there
with `UnauthorizedException('User not found')` — then the email branch,
the name branch, persistence, and the result stripped of `password` and
`refreshToken`. -/
def updateUser (db : Db) (userId : String) (dto : UpdateUserDto) :
    Db × Except AuthError UserWithoutSensitive :=
  if userId = "" ∨ jsTrim userId = "" then
    (db, .error (.badRequest "User ID is required"))
  else if dto.email = none ∧ dto.name = none then
    (db, .error (.badRequest "At least one field must be provided for update"))
  else
    match db.find? fun u => u.id == jsTrim userId with
    | none => (db, .error (.unauthorized "User not found"))
    | some user =>
      match applyEmailUpdate db user dto.email with
      | .error err => (db, .error err)
      | .ok user1 =>
        match applyNameUpdate user1 dto.name with
        | .error err => (db, .error err)
        | .ok user2 => (saveUser db user2, .ok user2.withoutSensitive)

/-- Discriminator: is the outcome an `UnauthorizedException`? -/
def isUnauthorizedErr {α : Type} : Except AuthError α → Bool
  | .error (.unauthorized _) => true
  | _ => false

/-- Discriminator: is the outcome a `NotFoundException`? -/
def isNotFoundErr {α : Type} : Except AuthError α → Bool
  | .error (.notFound _) => true
  | _ => false

/-- Discriminator: did the operation succeed? -/
def isOkResult {α : Type} : Except AuthError α → Bool
  | .ok _ => true
  | .error _ => false

/-- The paired-fields invariant on one user: `refreshToken` and
`refreshTokenExpiresAt` are both present or both absent. -/
def pairedOk (u : User) : Bool :=
  u.refreshToken.isNone == u.refreshTokenExpiresAt.isNone

/-- The paired-fields invariant over the whole table. -/
def dbPaired (db : Db) : Bool := db.all pairedOk

/-- Test double for `bcrypt.hash`. -/
def testHash (s : String) : String := String.append "h:" s

/-- Test double for `bcrypt.compare`. -/
def testCompare (pw h : String) : Bool := h == String.append "h:" pw

/-- Test double for `refreshJwtService.verify`: every token decodes to the
subject `u1` with kind `refresh`. -/
def testVerifyOk (_t : String) : Except VerifyError RefreshPayload :=
  .ok ⟨"u1", some "refresh"⟩

/-- A user with an active session, for concrete witnesses. -/
def uAnn : User :=
  { id := "u1", email := "ann@example.com", password := "h:password123"
    name := "Ann", refreshToken := some "tokA"
    refreshTokenExpiresAt := some 1000, createdAt := 0 }

/-- A one-user table holding `uAnn`. -/
def dbAnn : Db := [uAnn]

/-- The user `uAnn` after a successful rotation to the `tokB` pair. -/
def uAnnRotated : User :=
  { uAnn with refreshToken := some "tokB", refreshTokenExpiresAt := some 2000 }

/-- The signing environment used by concrete witnesses. -/
def tenvB : TokenEnv := { newAccess := "accB", newRefresh := "tokB", newExpiry := 2000 }

/-- A copy of `uAnn` whose stored session has expired at time 5000. -/
def uAnnStale : User := { uAnn with refreshTokenExpiresAt := some 100 }

/-- A user without any live session, for counterexamples about outputs. -/
def uNoSession : User :=
  { id := "u1", email := "ann@example.com", password := "h:password123"
    name := "Ann", refreshToken := none, refreshTokenExpiresAt := none
    createdAt := 0 }

/-- The user created by registering with the one-character name `x`. -/
def uShortName : User := mkRegisteredUser testHash "u9" 7 "a@b.c" "password123" "x"

/-- The user `uAnn` after a profile update renaming her to `Annie`. -/
def uAnnRenamed : User := { uAnn with name := "Annie" }

/-- C10: `updateUser` rejects an update object that provides neither email
nor name: for an existing user id the call fails with the `InvalidInput`
(`BadRequestException`) kind before any lookup or write, leaving the table
unchanged. -/
theorem updateUser_empty_dto_rejected (db : Db) (userId : String)
    (hne : ¬(userId = "" ∨ jsTrim userId = ""))
    (hexists : (db.find? fun u => u.id == jsTrim userId).isSome = true) :
    updateUser db userId ⟨none, none⟩
      = (db, .error (.badRequest "At least one field must be provided for update")) := by
  simp [updateUser, hne]

/-- Witness for `updateUser_empty_dto_rejected` at the concrete table
`dbAnn` and the existing id `u1`. -/
theorem updateUser_empty_dto_rejected_witness :
    ((dbAnn.find? fun u => u.id == jsTrim "u1").isSome = true)
    ∧ updateUser dbAnn "u1" ⟨none, none⟩
      = (dbAnn, .error (.badRequest "At least one field must be provided for update")) :=
  ⟨by decide, updateUser_empty_dto_rejected dbAnn "u1" (by decide) (by decide)⟩

/-- C9 counterexample: with no user under id `u1`, `updateUser` fails with
the `Unauthorized` kind (message `User not found`), not with the
`NotFound` kind the claim requires. -/
theorem updateUser_missing_user_not_notFound :
    updateUser [] "u1" ⟨none, some "Bobby"⟩
      = ([], .error (.unauthorized "User not found"))
    ∧ isNotFoundErr (updateUser [] "u1" ⟨none, some "Bobby"⟩).2 = false :=
  ⟨rfl, rfl⟩

/-- C9 amended: `updateUser` fails with the `Unauthorized` error kind
(message `User not found`), and with no other kind, whenever no user
exists with the given id (after the id and non-empty-dto checks). -/
theorem updateUser_missing_user_unauthorized (db : Db) (userId : String)
    (dto : UpdateUserDto)
    (hne : ¬(userId = "" ∨ jsTrim userId = ""))
    (hdto : ¬(dto.email = none ∧ dto.name = none))
    (hfind : db.find? (fun u => u.id == jsTrim userId) = none) :
    updateUser db userId dto = (db, .error (.unauthorized "User not found")) := by
  simp [updateUser, hne, hdto, hfind]

/-- Witness for `updateUser_missing_user_unauthorized`: the id `zz` is
absent from `dbAnn`. -/
theorem updateUser_missing_user_unauthorized_witness :
    (dbAnn.find? (fun u => u.id == jsTrim "zz") = none)
    ∧ updateUser dbAnn "zz" ⟨none, some "Bobby"⟩
      = (dbAnn, .error (.unauthorized "User not found")) :=
  ⟨by decide,
   updateUser_missing_user_unauthorized dbAnn "zz" ⟨none, some "Bobby"⟩
     (by decide) (by decide) (by decide)⟩

/-- C6: on credential verification, the unknown-email path compares the
supplied password against the fixed dummy hash, so it performs exactly as
many bcrypt comparisons as the wrong-password path (one each), and both
paths return the same generic failure (`none`). -/
theorem validateUser_timing_mitigation
    (compare : String → String → Bool) (db : Db)
    (email1 email2 password password2 : String) (user : User)
    (h1 : ¬(email1 = "" ∨ password = ""))
    (h2 : ¬(email2 = "" ∨ password2 = ""))
    (hnf : db.find? (fun u => u.email == jsTrim (jsToLower email1)) = none)
    (hf : db.find? (fun u => u.email == jsTrim (jsToLower email2)) = some user)
    (hbad : compare password2 user.password = false) :
    (validateUser compare db email1 password).1 = none
    ∧ (validateUser compare db email1 password).2 = [(password, dummyHash)]
    ∧ (validateUser compare db email2 password2).1 = none
    ∧ (validateUser compare db email2 password2).2.length
        = (validateUser compare db email1 password).2.length := by
  simp [validateUser, h1, h2, hnf, hf, hbad]

/-- Witness for `validateUser_timing_mitigation`: `bob@example.com` is
unknown in `dbAnn` while `ann@example.com` exists with a non-matching
password. -/
theorem validateUser_timing_mitigation_witness :
    (dbAnn.find? (fun u => u.email == jsTrim (jsToLower "bob@example.com")) = none)
    ∧ (dbAnn.find? (fun u => u.email == jsTrim (jsToLower "ann@example.com")) = some uAnn)
    ∧ testCompare "wrongpass" uAnn.password = false
    ∧ (validateUser testCompare dbAnn "bob@example.com" "whatever1").1 = none
    ∧ (validateUser testCompare dbAnn "bob@example.com" "whatever1").2
        = [("whatever1", dummyHash)]
    ∧ (validateUser testCompare dbAnn "ann@example.com" "wrongpass").1 = none
    ∧ (validateUser testCompare dbAnn "ann@example.com" "wrongpass").2.length
        = (validateUser testCompare dbAnn "bob@example.com" "whatever1").2.length := by
  have h := validateUser_timing_mitigation testCompare dbAnn
    "bob@example.com" "ann@example.com" "whatever1" "wrongpass" uAnn
    (by decide) (by decide) (by decide) (by decide) (by decide)
  exact ⟨by decide, by decide, by decide, h.1, h.2.1, h.2.2.1, h.2.2.2⟩

/-- C8 counterexample: `register` accepts a name whose trimmed length is 1
(the claim requires rejection with `InvalidInput` and no user created):
with the one-character name `x` the call succeeds and inserts the user. -/
theorem register_accepts_one_char_name :
    register testHash "u9" 7 [] "a@b.c" "password123" "x"
      = ([uShortName], .ok ⟨uShortName.withoutPassword⟩)
    ∧ (jsTrim "x").length < 2 :=
  ⟨rfl, by decide⟩

/-- C8 amended: after the required-fields, email and duplicate checks,
`register` rejects with `InvalidInput` exactly when the password is
shorter than 8 characters; it performs no minimum-length validation of the
trimmed name, so with a password of length ≥ 8 the call succeeds and
creates the user whatever the trimmed name length (one-character and
whitespace-only names included). -/
theorem register_password_checked_name_unchecked
    (hash : String → String) (newId : String) (now : Nat) (db : Db)
    (e p n : String)
    (hne : ¬(e = "" ∨ p = "" ∨ n = ""))
    (hemail : ¬(jsTrim (jsToLower e) = "" ∨ (jsTrim (jsToLower e)).length < 3))
    (hnodup : db.find? (fun u => u.email == jsTrim (jsToLower e)) = none) :
    (p.length < 8 →
      register hash newId now db e p n
        = (db, .error (.badRequest "Password must be at least 8 characters long")))
    ∧ (¬ p.length < 8 →
      register hash newId now db e p n
        = (db ++ [mkRegisteredUser hash newId now e p n],
           .ok ⟨(mkRegisteredUser hash newId now e p n).withoutPassword⟩)) := by
  constructor <;> intro hp <;> simp [register, hne, hemail, hnodup, hp]

/-- Witness for `register_password_checked_name_unchecked` at the
7-character password `short12` against the empty table. -/
theorem register_password_checked_name_unchecked_witness :
    (("short12" : String).length < 8)
    ∧ (("short12" : String).length < 8 →
        register testHash "u9" 7 [] "a@b.c" "short12" "x"
          = ([], .error (.badRequest "Password must be at least 8 characters long")))
    ∧ (¬ ("short12" : String).length < 8 →
        register testHash "u9" 7 [] "a@b.c" "short12" "x"
          = ([] ++ [mkRegisteredUser testHash "u9" 7 "a@b.c" "short12" "x"],
             .ok ⟨(mkRegisteredUser testHash "u9" 7 "a@b.c" "short12" "x").withoutPassword⟩)) := by
  have h := register_password_checked_name_unchecked testHash "u9" 7 []
    "a@b.c" "short12" "x" (by decide) (by decide) (by decide)
  exact ⟨by decide, h.1, h.2⟩

/-- C2 counterexample: `findById` (the `getProfile` lookup) does not omit
the session fields: two tables whose sole user agrees on every sanitized
field but differs in `refreshToken` give different outputs, and the output
exposes the stored `refreshToken` and `refreshTokenExpiresAt` values. -/
theorem findById_output_not_sanitized :
    sanitizeSpec uAnn = sanitizeSpec uNoSession
    ∧ findById dbAnn "u1" ≠ findById [uNoSession] "u1"
    ∧ (findById dbAnn "u1").map (fun w => w.refreshToken) = some (some "tokA")
    ∧ (findById dbAnn "u1").map (fun w => w.refreshTokenExpiresAt) = some (some 1000) :=
  ⟨rfl, by decide, rfl, rfl⟩

/-- Helper: a pair whose second component is an error never equals a pair
whose second component is a success. -/
theorem pair_error_ne_ok {α : Type} {a b : Db} {e : AuthError} {t : α}
    (h : (a, (Except.error e : Except AuthError α)) = (b, Except.ok t)) : False :=
  Except.noConfusion (congrArg Prod.snd h)

/-- Inversion of a successful `register`: every check passed, no user with
the normalized email existed, and the new user was appended to the table. -/
theorem register_ok_inversion
    (hash : String → String) (newId : String) (now : Nat) (db db1 : Db)
    (e p n : String) (res : RegisterResult)
    (h : register hash newId now db e p n = (db1, .ok res)) :
    ¬(e = "" ∨ p = "" ∨ n = "")
    ∧ ¬(jsTrim (jsToLower e) = "" ∨ (jsTrim (jsToLower e)).length < 3)
    ∧ db.find? (fun u => u.email == jsTrim (jsToLower e)) = none
    ∧ ¬ p.length < 8
    ∧ db1 = db ++ [mkRegisteredUser hash newId now e p n]
    ∧ res = ⟨(mkRegisteredUser hash newId now e p n).withoutPassword⟩ := by
  simp only [register] at h
  split at h
  next hemp => exact (pair_error_ne_ok h).elim
  next hemp =>
    split at h
    next hbad => exact (pair_error_ne_ok h).elim
    next hbad =>
      split at h
      next w hfind => exact (pair_error_ne_ok h).elim
      next hfind =>
        split at h
        next hshort => exact (pair_error_ne_ok h).elim
        next hshort =>
          injection h with hdb hres
          injection hres with hres
          exact ⟨hemp, hbad, hfind, hshort, hdb.symm, hres.symm⟩

/-- C7: after a successful registration, a second `register` whose email
normalizes to the same string (case/whitespace variant) fails `Conflict`
and leaves the table unchanged, so at most one of the two registrations
succeeds. -/
theorem register_duplicate_email_conflict
    (hash hash2 : String → String) (id1 id2 : String) (t1 t2 : Nat)
    (db db1 : Db) (e1 p1 n1 e2 p2 n2 : String) (res : RegisterResult)
    (h1 : register hash id1 t1 db e1 p1 n1 = (db1, .ok res))
    (hnorm : jsTrim (jsToLower e2) = jsTrim (jsToLower e1))
    (hp2 : p2 ≠ "") (hn2 : n2 ≠ "") :
    register hash2 id2 t2 db1 e2 p2 n2
      = (db1, .error (.conflict "User with this email already exists")) := by
  obtain ⟨hne, hemail, hnodup, hlen, hdb1, -⟩ :=
    register_ok_inversion hash id1 t1 db db1 e1 p1 n1 res h1
  have he2 : ¬(e2 = "" ∨ p2 = "" ∨ n2 = "") := by
    intro hh
    rcases hh with hh | hh | hh
    · exact hemail (Or.inl (by rw [← hnorm, hh]; rfl))
    · exact hp2 hh
    · exact hn2 hh
  have hemail2 : ¬(jsTrim (jsToLower e2) = "" ∨ (jsTrim (jsToLower e2)).length < 3) := by
    rw [hnorm]; exact hemail
  simp only [register]
  rw [if_neg he2, hnorm, if_neg hemail]
  rw [hdb1, List.find?_append, hnodup, Option.none_or]
  have hhit : List.find? (fun u => u.email == jsTrim (jsToLower e1))
      [mkRegisteredUser hash id1 t1 e1 p1 n1]
      = some (mkRegisteredUser hash id1 t1 e1 p1 n1) := by
    simp [List.find?, mkRegisteredUser]
  rw [hhit]

/-- Witness for `register_duplicate_email_conflict`: registering
`Ann@Example.Com ` on an empty table and then `ann@example.com`. -/
theorem register_duplicate_email_conflict_witness :
    register testHash "u1" 0 [] "Ann@Example.Com " "password123" "Ann"
      = ([mkRegisteredUser testHash "u1" 0 "Ann@Example.Com " "password123" "Ann"],
         .ok ⟨(mkRegisteredUser testHash "u1" 0 "Ann@Example.Com " "password123" "Ann").withoutPassword⟩)
    ∧ jsTrim (jsToLower "ann@example.com") = jsTrim (jsToLower "Ann@Example.Com ")
    ∧ register testHash "u2" 1
        [mkRegisteredUser testHash "u1" 0 "Ann@Example.Com " "password123" "Ann"]
        "ann@example.com" "password456" "Annie"
      = ([mkRegisteredUser testHash "u1" 0 "Ann@Example.Com " "password123" "Ann"],
         .error (.conflict "User with this email already exists")) :=
  ⟨rfl, by decide,
   register_duplicate_email_conflict testHash testHash "u1" "u2" 0 1 []
     [mkRegisteredUser testHash "u1" 0 "Ann@Example.Com " "password123" "Ann"]
     "Ann@Example.Com " "password123" "Ann" "ann@example.com" "password456" "Annie"
     ⟨(mkRegisteredUser testHash "u1" 0 "Ann@Example.Com " "password123" "Ann").withoutPassword⟩
     rfl (by decide) (by decide) (by decide)⟩

/-- Helper: storing a fresh session sets both paired fields. -/
theorem pairedOk_withSession (u : User) (tk : String) (expiry : Nat) :
    pairedOk (u.withSession tk expiry) = true := rfl

/-- Helper: clearing a session clears both paired fields. -/
theorem pairedOk_clearSession (u : User) : pairedOk u.clearSession = true := rfl

/-- Helper: an id-keyed save of a paired user preserves the table-wide
paired-fields invariant. -/
theorem dbPaired_saveUser {db : Db} {u : User} (h : dbPaired db = true)
    (hu : pairedOk u = true) : dbPaired (saveUser db u) = true := by
  simp only [dbPaired, saveUser, List.all_eq_true] at h ⊢
  intro v hv
  obtain ⟨w, hw, rfl⟩ := List.mem_map.mp hv
  by_cases hid : w.id = u.id
  · simpa [hid] using hu
  · simpa [hid] using h w hw

/-- Helper: the id-keyed clear performed by `revokeRefreshToken` preserves
the paired-fields invariant. -/
theorem dbPaired_clearMap (db : Db) (uid : String) (h : dbPaired db = true) :
    dbPaired (db.map fun u => if u.id = uid then u.clearSession else u) = true := by
  simp only [dbPaired, List.all_eq_true] at h ⊢
  intro v hv
  obtain ⟨w, hw, rfl⟩ := List.mem_map.mp hv
  by_cases hid : w.id = uid
  · simpa [hid] using pairedOk_clearSession w
  · simpa [hid] using h w hw

/-- Helper: the email branch of `updateUser` never touches the session
fields. -/
theorem applyEmailUpdate_session (db : Db) (user u1 : User) (e : Option String)
    (h : applyEmailUpdate db user e = .ok u1) :
    u1.refreshToken = user.refreshToken
    ∧ u1.refreshTokenExpiresAt = user.refreshTokenExpiresAt := by
  simp only [applyEmailUpdate] at h
  split at h
  · injection h with h; subst h; exact ⟨rfl, rfl⟩
  · split at h
    · exact Except.noConfusion h
    · split at h
      · exact Except.noConfusion h
      · split at h
        · split at h
          · exact Except.noConfusion h
          · injection h with h; subst h; exact ⟨rfl, rfl⟩
        · injection h with h; subst h; exact ⟨rfl, rfl⟩

/-- Helper: the name branch of `updateUser` never touches the session
fields. -/
theorem applyNameUpdate_session (user u1 : User) (n : Option String)
    (h : applyNameUpdate user n = .ok u1) :
    u1.refreshToken = user.refreshToken
    ∧ u1.refreshTokenExpiresAt = user.refreshTokenExpiresAt := by
  simp only [applyNameUpdate] at h
  split at h
  · injection h with h; subst h; exact ⟨rfl, rfl⟩
  · split at h
    · exact Except.noConfusion h
    · split at h
      · exact Except.noConfusion h
      · injection h with h; subst h; exact ⟨rfl, rfl⟩

/-- C5: every mutating operation preserves the paired-fields invariant —
`refreshToken` and `refreshTokenExpiresAt` are always set together
(`login`, successful `refresh`) or cleared together (`logout`, the expired
branch of `refresh`); `register` creates users with both absent and
`updateUser` leaves both untouched.  Hence no reachable table has exactly
one of the two fields set. -/
theorem paired_fields_invariant
    (compare : String → String → Bool) (hash : String → String)
    (verify : String → Except VerifyError RefreshPayload)
    (now tReg : Nat) (newId : String) (tenv : TokenEnv) (db : Db)
    (e p n tok uid : String) (dto : UpdateUserDto)
    (h : dbPaired db = true) :
    dbPaired (register hash newId tReg db e p n).1 = true
    ∧ dbPaired (login compare tenv db e p).1 = true
    ∧ dbPaired (refreshAccessToken verify now tenv db tok).1 = true
    ∧ dbPaired (revokeRefreshToken db uid).1 = true
    ∧ dbPaired (updateUser db uid dto).1 = true := by
  refine ⟨?_, ?_, ?_, ?_, ?_⟩
  · simp only [register]
    split
    · exact h
    · split
      · exact h
      · split
        · exact h
        · split
          · exact h
          · have hmk : pairedOk (mkRegisteredUser hash newId tReg e p n) = true := rfl
            simp only [dbPaired, List.all_append, List.all_cons, List.all_nil,
              Bool.and_true, hmk] at h ⊢
            exact h
  · simp only [login]
    split
    · exact h
    · split
      · exact h
      · split
        · split
          · exact h
          · exact dbPaired_saveUser h (pairedOk_withSession _ _ _)
        · exact h
  · simp only [refreshAccessToken]
    split
    · exact h
    · split
      · exact h
      · split
        · exact h
        · split
          · exact h
          · split
            · exact h
            · split
              · exact dbPaired_saveUser h (pairedOk_clearSession _)
              · split
                · exact dbPaired_saveUser h (pairedOk_clearSession _)
                · split
                  · exact h
                  · split
                    · exact h
                    · exact dbPaired_saveUser h (pairedOk_withSession _ _ _)
  · simp only [revokeRefreshToken]
    split
    · exact h
    · exact dbPaired_clearMap db (jsTrim uid) h
  · simp only [updateUser]
    split
    · exact h
    · split
      · exact h
      · split
        · exact h
        · next user hfind =>
          split
          · exact h
          · next user1 hstep1 =>
            split
            · exact h
            · next user2 hstep2 =>
              have hu : user ∈ db := List.mem_of_find?_eq_some hfind
              have hpu : pairedOk user = true := by
                have hall : db.all pairedOk = true := h
                exact List.all_eq_true.mp hall user hu
              obtain ⟨he1, he2⟩ := applyEmailUpdate_session db user user1 dto.email hstep1
              obtain ⟨hf1, hf2⟩ := applyNameUpdate_session user1 user2 dto.name hstep2
              have hp2 : pairedOk user2 = true := by
                simp only [pairedOk] at hpu ⊢
                rw [hf1, he1, hf2, he2]
                exact hpu
              exact dbPaired_saveUser h hp2

/-- Witness for `paired_fields_invariant`: all five operations applied to
the concrete paired table `dbAnn`. -/
theorem paired_fields_invariant_witness :
    dbPaired dbAnn = true
    ∧ dbPaired (register testHash "u9" 7 dbAnn "ann@example.com" "password123" "Bob").1 = true
    ∧ dbPaired (login testCompare tenvB dbAnn "ann@example.com" "password123").1 = true
    ∧ dbPaired (refreshAccessToken testVerifyOk 500 tenvB dbAnn "tokA").1 = true
    ∧ dbPaired (revokeRefreshToken dbAnn "u1").1 = true
    ∧ dbPaired (updateUser dbAnn "u1" ⟨none, some "Annie"⟩).1 = true := by
  have hres := paired_fields_invariant testCompare testHash testVerifyOk 500 7 "u9"
    tenvB dbAnn "ann@example.com" "password123" "Bob" "tokA" "u1" ⟨none, some "Annie"⟩
    (by decide)
  exact ⟨by decide, hres.1, hres.2.1, hres.2.2.1, hres.2.2.2.1, hres.2.2.2.2⟩

/-- Inversion of a successful `refreshAccessToken`: every check passed for
some decoded payload `p`, stored user `u` and stored expiry `exp`, the new
pair was returned, and the stored token was rotated. -/
theorem refresh_ok_inversion
    (verify : String → Except VerifyError RefreshPayload) (now : Nat)
    (tenv : TokenEnv) (db db' : Db) (tok : String) (toks : Tokens)
    (h : refreshAccessToken verify now tenv db tok = (db', .ok toks)) :
    ∃ p u exp,
      ¬(tok = "" ∨ jsTrim tok = "")
      ∧ verify (jsTrim tok) = .ok p
      ∧ ¬ p.sub = ""
      ∧ p.type = some "refresh"
      ∧ db.find? (fun v => v.refreshToken == some (jsTrim tok)) = some u
      ∧ u.refreshTokenExpiresAt = some exp
      ∧ ¬ now > exp
      ∧ u.id = p.sub
      ∧ ¬(u.id = "" ∨ u.email = "")
      ∧ toks = ⟨tenv.newAccess, tenv.newRefresh⟩
      ∧ db' = saveUser db (u.withSession tenv.newRefresh tenv.newExpiry) := by
  simp only [refreshAccessToken] at h
  split at h
  next hemp => exact (pair_error_ne_ok h).elim
  next hemp =>
    split at h
    next ve hv => exact (pair_error_ne_ok h).elim
    next p hv =>
      split at h
      next hsub => exact (pair_error_ne_ok h).elim
      next hsub =>
        split at h
        next hty => exact (pair_error_ne_ok h).elim
        next hty =>
          split at h
          next hfind => exact (pair_error_ne_ok h).elim
          next user hfind =>
            split at h
            next hexp => exact (pair_error_ne_ok h).elim
            next exp hexp =>
              split at h
              next hgt => exact (pair_error_ne_ok h).elim
              next hgt =>
                split at h
                next hmis => exact (pair_error_ne_ok h).elim
                next hmis =>
                  split at h
                  next hbad => exact (pair_error_ne_ok h).elim
                  next hbad =>
                    injection h with hdb htoks
                    injection htoks with htoks
                    exact ⟨p, user, exp, hemp, hv, hsub, of_not_not hty, hfind,
                      hexp, hgt, of_not_not hmis, hbad, htoks.symm, hdb.symm⟩

/-- Helper: when no stored refresh token matches the (nonempty) presented
value, `refreshAccessToken` fails with the `Unauthorized` kind and leaves
the table unchanged, whatever the verification outcome. -/
theorem refresh_not_found
    (verify : String → Except VerifyError RefreshPayload) (now : Nat)
    (tenv : TokenEnv) (db : Db) (tok : String)
    (hne : ¬(tok = "" ∨ jsTrim tok = ""))
    (hfind : db.find? (fun u => u.refreshToken == some (jsTrim tok)) = none) :
    isUnauthorizedErr (refreshAccessToken verify now tenv db tok).2 = true
    ∧ (refreshAccessToken verify now tenv db tok).1 = db := by
  simp only [refreshAccessToken]
  rw [if_neg hne]
  cases hv : verify (jsTrim tok) with
  | error ve => exact ⟨rfl, rfl⟩
  | ok p =>
    by_cases hsub : p.sub = ""
    · simp [hsub, isUnauthorizedErr]
    · by_cases hty : p.type ≠ some "refresh"
      · simp [hsub, hty, isUnauthorizedErr]
      · simp [hsub, hty, hfind, isUnauthorizedErr]

/-- Helper: after replacing the token holder by an id-matching user that no
longer stores the value `tk`, a lookup of `tk` finds nothing, provided all
holders of `tk` shared that id. -/
theorem find?_token_after_replace
    (db : Db) (u unew : User) (tk : String)
    (huniq : ∀ v ∈ db, v.refreshToken = some tk → v.id = u.id)
    (hid : unew.id = u.id)
    (hnew : unew.refreshToken ≠ some tk) :
    (saveUser db unew).find? (fun v => v.refreshToken == some tk) = none := by
  simp only [saveUser]
  rw [List.find?_eq_none]
  intro v hv
  obtain ⟨w, hw, rfl⟩ := List.mem_map.mp hv
  by_cases hwid : w.id = unew.id
  · simpa [hwid] using hnew
  · simp only [if_neg hwid]
    intro hcontra
    have hwt : w.refreshToken = some tk := by simpa using hcontra
    exact hwid (by rw [huniq w hw hwt, hid])

/-- Helper: after the id-keyed clear of `revokeRefreshToken`, a lookup of
`tk` finds nothing, provided all holders of `tk` had the cleared id. -/
theorem find?_token_after_revoke
    (db : Db) (uid tk : String)
    (huniq : ∀ v ∈ db, v.refreshToken = some tk → v.id = uid) :
    ((db.map fun u => if u.id = uid then u.clearSession else u).find?
      (fun v => v.refreshToken == some tk)) = none := by
  rw [List.find?_eq_none]
  intro v hv
  obtain ⟨w, hw, rfl⟩ := List.mem_map.mp hv
  by_cases hwid : w.id = uid
  · simp [hwid, User.clearSession]
  · simp only [if_neg hwid]
    intro hcontra
    have hwt : w.refreshToken = some tk := by simpa using hcontra
    exact hwid (huniq w hw hwt)

/-- C1: refresh-token rotation is single-use.  If `refresh(tokenA)`
succeeds against a table whose only holders of `tokenA` share the found
user's id, and the freshly signed token differs from `tokenA`, then the
returned pair carries the fresh token, the found user's stored token has
been overwritten with it, and a subsequent `refresh(tokenA)` against the
resulting table fails with the `Unauthorized` kind without changing it. -/
theorem refresh_rotation_single_use
    (verify verify2 : String → Except VerifyError RefreshPayload)
    (now now2 : Nat) (tenv tenv2 : TokenEnv) (db db' : Db)
    (tokenA : String) (toks : Tokens) (u : User)
    (hfind : db.find? (fun v => v.refreshToken == some (jsTrim tokenA)) = some u)
    (huniq : ∀ v ∈ db, v.refreshToken = some (jsTrim tokenA) → v.id = u.id)
    (hfresh : tenv.newRefresh ≠ jsTrim tokenA)
    (h1 : refreshAccessToken verify now tenv db tokenA = (db', .ok toks)) :
    toks.refresh_token = tenv.newRefresh
    ∧ (db'.all fun v => !(v.id == u.id) || v.refreshToken == some tenv.newRefresh) = true
    ∧ isUnauthorizedErr (refreshAccessToken verify2 now2 tenv2 db' tokenA).2 = true
    ∧ (refreshAccessToken verify2 now2 tenv2 db' tokenA).1 = db' := by
  obtain ⟨p, u', exp, hemp, hv, hsub, hty, hfind', hexp, hgt, hid, hok, htoks, hdb'⟩ :=
    refresh_ok_inversion verify now tenv db db' tokenA toks h1
  have huu : u' = u := by
    rw [hfind] at hfind'
    exact (Option.some.inj hfind').symm
  subst huu
  have hnone : db'.find? (fun v => v.refreshToken == some (jsTrim tokenA)) = none := by
    rw [hdb']
    exact find?_token_after_replace db u' (u'.withSession tenv.newRefresh tenv.newExpiry)
      (jsTrim tokenA) huniq rfl (by simpa [User.withSession] using hfresh)
  have hsecond := refresh_not_found verify2 now2 tenv2 db' tokenA hemp hnone
  refine ⟨by rw [htoks], ?_, hsecond.1, hsecond.2⟩
  rw [hdb']
  simp only [saveUser, List.all_eq_true]
  intro v hv'
  obtain ⟨w, hw, rfl⟩ := List.mem_map.mp hv'
  by_cases hwid : w.id = (u'.withSession tenv.newRefresh tenv.newExpiry).id
  · simp [hwid, User.withSession]
  · have : ¬ w.id = u'.id := by simpa [User.withSession] using hwid
    simp [if_neg hwid, this]

/-- Witness for `refresh_rotation_single_use`: rotating `tokA` to `tokB`
for `uAnn` in `dbAnn`, then replaying `tokA`. -/
theorem refresh_rotation_single_use_witness :
    refreshAccessToken testVerifyOk 500 tenvB dbAnn "tokA"
      = (saveUser dbAnn (uAnn.withSession "tokB" 2000), .ok ⟨"accB", "tokB"⟩)
    ∧ (⟨"accB", "tokB"⟩ : Tokens).refresh_token = tenvB.newRefresh
    ∧ ((saveUser dbAnn (uAnn.withSession "tokB" 2000)).all
        fun v => !(v.id == uAnn.id) || v.refreshToken == some tenvB.newRefresh) = true
    ∧ isUnauthorizedErr (refreshAccessToken testVerifyOk 600 tenvB
        (saveUser dbAnn (uAnn.withSession "tokB" 2000)) "tokA").2 = true := by
  have hres := refresh_rotation_single_use testVerifyOk testVerifyOk 500 600 tenvB tenvB
    dbAnn (saveUser dbAnn (uAnn.withSession "tokB" 2000)) "tokA" ⟨"accB", "tokB"⟩ uAnn
    (by decide) (by decide) (by decide) rfl
  exact ⟨rfl, hres.1, hres.2.1, hres.2.2.1⟩

/-- C3: when the user found by refresh-token lookup has a stored expiry
strictly in the past (all other checks passing), `refreshAccessToken`
fails `Unauthorized` with the expiry message, and as a side effect clears
both stored session fields of every row with that user's id, so a second
lookup of the same token value finds nothing. -/
theorem refresh_expired_token_clears_entry
    (verify : String → Except VerifyError RefreshPayload) (now : Nat)
    (tenv : TokenEnv) (db : Db) (tok : String)
    (p : RefreshPayload) (u : User) (exp : Nat)
    (hne : ¬(tok = "" ∨ jsTrim tok = ""))
    (hv : verify (jsTrim tok) = .ok p)
    (hsub : ¬ p.sub = "")
    (hty : p.type = some "refresh")
    (hfind : db.find? (fun v => v.refreshToken == some (jsTrim tok)) = some u)
    (hexp : u.refreshTokenExpiresAt = some exp)
    (hpast : exp < now)
    (huniq : ∀ v ∈ db, v.refreshToken = some (jsTrim tok) → v.id = u.id) :
    refreshAccessToken verify now tenv db tok
      = (saveUser db u.clearSession, .error (.unauthorized "Refresh token has expired"))
    ∧ ((saveUser db u.clearSession).all
        fun v => !(v.id == u.id) || (v.refreshToken == (none : Option String)
          && v.refreshTokenExpiresAt == (none : Option Nat))) = true
    ∧ (saveUser db u.clearSession).find?
        (fun v => v.refreshToken == some (jsTrim tok)) = none := by
  refine ⟨?_, ?_, ?_⟩
  · simp only [refreshAccessToken]
    rw [if_neg hne, hv]
    simp only [hfind, hexp]
    rw [if_neg hsub, if_neg (by simp [hty]), if_pos hpast]
  · simp only [saveUser, List.all_eq_true]
    intro v hv'
    obtain ⟨w, hw, rfl⟩ := List.mem_map.mp hv'
    by_cases hwid : w.id = u.clearSession.id
    · simp [hwid, User.clearSession]
    · have : ¬ w.id = u.id := by simpa [User.clearSession] using hwid
      simp [if_neg hwid, this]
  · exact find?_token_after_replace db u u.clearSession (jsTrim tok) huniq rfl
      (by simp [User.clearSession])

/-- Witness for `refresh_expired_token_clears_entry`: `uAnnStale` holds
`tokA` with expiry 100 while the current time is 5000. -/
theorem refresh_expired_token_clears_entry_witness :
    refreshAccessToken testVerifyOk 5000 tenvB [uAnnStale] "tokA"
      = (saveUser [uAnnStale] uAnnStale.clearSession,
         .error (.unauthorized "Refresh token has expired"))
    ∧ (saveUser [uAnnStale] uAnnStale.clearSession).find?
        (fun v => v.refreshToken == some (jsTrim "tokA")) = none := by
  have hres := refresh_expired_token_clears_entry testVerifyOk 5000 tenvB [uAnnStale]
    "tokA" ⟨"u1", some "refresh"⟩ uAnnStale 100
    (by decide) rfl (by decide) rfl (by decide) rfl (by decide) (by decide)
  exact ⟨hres.1, hres.2.2⟩

/-- C4: logout invalidates the session.  If `refresh(tok)` would have
succeeded against the current table and the presented token's subject is
the logged-out user (all holders of `tok` sharing that id), then
`revokeRefreshToken(userId)` succeeds and a subsequent `refresh(tok)`
against the revoked table fails with the `Unauthorized` kind, leaving the
table unchanged. -/
theorem logout_invalidates_refresh
    (verify verify2 : String → Except VerifyError RefreshPayload)
    (now now2 : Nat) (tenv tenv2 : TokenEnv) (db db1 : Db)
    (tok userId : String) (toks : Tokens) (p : RefreshPayload)
    (h1 : refreshAccessToken verify now tenv db tok = (db1, .ok toks))
    (hv : verify (jsTrim tok) = .ok p)
    (hid : jsTrim userId = p.sub)
    (hune : ¬(userId = "" ∨ jsTrim userId = ""))
    (huniq : ∀ v ∈ db, v.refreshToken = some (jsTrim tok) → v.id = p.sub) :
    (revokeRefreshToken db userId).2 = .ok ()
    ∧ isUnauthorizedErr
        (refreshAccessToken verify2 now2 tenv2 (revokeRefreshToken db userId).1 tok).2 = true
    ∧ (refreshAccessToken verify2 now2 tenv2 (revokeRefreshToken db userId).1 tok).1
        = (revokeRefreshToken db userId).1 := by
  obtain ⟨p', u, exp, hemp, hv', hsub, hty, hfind, hexp, hgt, hid', hok, htoks, hdb'⟩ :=
    refresh_ok_inversion verify now tenv db db1 tok toks h1
  have hpp : p' = p := by
    rw [hv] at hv'
    exact (Except.ok.inj hv').symm
  subst hpp
  have hrev : revokeRefreshToken db userId
      = (db.map fun u => if u.id = jsTrim userId then u.clearSession else u, .ok ()) := by
    simp [revokeRefreshToken, hune]
  have hnone : (revokeRefreshToken db userId).1.find?
      (fun v => v.refreshToken == some (jsTrim tok)) = none := by
    rw [hrev, hid]
    exact find?_token_after_revoke db p'.sub (jsTrim tok) huniq
  have hsecond := refresh_not_found verify2 now2 tenv2 (revokeRefreshToken db userId).1
    tok hemp hnone
  exact ⟨by rw [hrev], hsecond.1, hsecond.2⟩

/-- Witness for `logout_invalidates_refresh`: `tokA` refreshes successfully
in `dbAnn`, but after `revokeRefreshToken` for `u1` it is rejected. -/
theorem logout_invalidates_refresh_witness :
    refreshAccessToken testVerifyOk 500 tenvB dbAnn "tokA"
      = (saveUser dbAnn (uAnn.withSession "tokB" 2000), .ok ⟨"accB", "tokB"⟩)
    ∧ (revokeRefreshToken dbAnn "u1").2 = .ok ()
    ∧ isUnauthorizedErr
        (refreshAccessToken testVerifyOk 600 tenvB (revokeRefreshToken dbAnn "u1").1 "tokA").2
        = true := by
  have hres := logout_invalidates_refresh testVerifyOk testVerifyOk 500 600 tenvB tenvB
    dbAnn (saveUser dbAnn (uAnn.withSession "tokB" 2000)) "tokA" "u1"
    ⟨"accB", "tokB"⟩ ⟨"u1", some "refresh"⟩
    rfl rfl (by decide) (by decide) (by decide)
  exact ⟨rfl, hres.1, hres.2.1⟩

/-- Helper: a successful `updateUser` returns the found user's stored
`refreshTokenExpiresAt` unchanged — neither update branch touches the
session fields, and only `password` and `refreshToken` are stripped from
the result. -/
theorem updateUser_ok_keeps_expiry
    (db db2 : Db) (uid : String) (dto : UpdateUserDto)
    (uU : User) (out : UserWithoutSensitive)
    (hfindU : db.find? (fun v => v.id == jsTrim uid) = some uU)
    (hupd : updateUser db uid dto = (db2, .ok out)) :
    out.refreshTokenExpiresAt = uU.refreshTokenExpiresAt := by
  simp only [updateUser] at hupd
  split at hupd
  next hid => exact (pair_error_ne_ok hupd).elim
  next hid =>
    split at hupd
    next hdto => exact (pair_error_ne_ok hupd).elim
    next hdto =>
      split at hupd
      next hf => exact (pair_error_ne_ok hupd).elim
      next user hf =>
        split at hupd
        next err hstep1 => exact (pair_error_ne_ok hupd).elim
        next user1 hstep1 =>
          split at hupd
          next err hstep2 => exact (pair_error_ne_ok hupd).elim
          next user2 hstep2 =>
            injection hupd with hdb hres
            injection hres with hres
            have huu : uU = user := by
              rw [hfindU] at hf
              exact Option.some.inj hf
            obtain ⟨-, he2⟩ := applyEmailUpdate_session db user user1 dto.email hstep1
            obtain ⟨-, hf2⟩ := applyNameUpdate_session user1 user2 dto.name hstep2
            rw [← hres]
            show user2.refreshTokenExpiresAt = uU.refreshTokenExpiresAt
            rw [hf2, he2, huu]

/-- C2 amended: every operation omits the password hash, but none omits all
session fields: `register` and `findById` strip only `password`, returning
`refreshToken` and `refreshTokenExpiresAt` unchanged, while `login` and
`updateUser` strip `password` and `refreshToken` but return
`refreshTokenExpiresAt` (for `login`, the freshly stored expiry; for
`updateUser`, the found user's stored one). -/
theorem sanitization_partial
    (db : Db) (id : String) (u : User)
    (hne : ¬(id = "" ∨ jsTrim id = ""))
    (hfind : db.find? (fun v => v.id == jsTrim id) = some u)
    (compare : String → String → Bool) (tenv : TokenEnv)
    (email password : String) (w : User)
    (hne2 : ¬(email = "" ∨ password = ""))
    (hfindw : db.find? (fun v => v.email == jsTrim (jsToLower email)) = some w)
    (hcmp : compare password w.password = true)
    (hwid : ¬(w.id = "" ∨ w.email = ""))
    (hash : String → String) (newId : String) (tReg : Nat) (eR pR nR : String)
    (hneR : ¬(eR = "" ∨ pR = "" ∨ nR = ""))
    (hemailR : ¬(jsTrim (jsToLower eR) = "" ∨ (jsTrim (jsToLower eR)).length < 3))
    (hnodupR : db.find? (fun v => v.email == jsTrim (jsToLower eR)) = none)
    (hlenR : ¬ pR.length < 8)
    (uid : String) (dto : UpdateUserDto) (db2 : Db)
    (uU : User) (out : UserWithoutSensitive)
    (hfindU : db.find? (fun v => v.id == jsTrim uid) = some uU)
    (hupd : updateUser db uid dto = (db2, .ok out)) :
    findById db id = some u.withoutPassword
    ∧ u.withoutPassword.refreshToken = u.refreshToken
    ∧ u.withoutPassword.refreshTokenExpiresAt = u.refreshTokenExpiresAt
    ∧ (login compare tenv db email password).2
        = .ok ⟨tenv.newAccess, tenv.newRefresh,
               (w.withSession tenv.newRefresh tenv.newExpiry).withoutSensitive⟩
    ∧ (w.withSession tenv.newRefresh tenv.newExpiry).withoutSensitive.refreshTokenExpiresAt
        = some tenv.newExpiry
    ∧ (register hash newId tReg db eR pR nR).2
        = .ok ⟨(mkRegisteredUser hash newId tReg eR pR nR).withoutPassword⟩
    ∧ (mkRegisteredUser hash newId tReg eR pR nR).withoutPassword.refreshToken
        = (mkRegisteredUser hash newId tReg eR pR nR).refreshToken
    ∧ (mkRegisteredUser hash newId tReg eR pR nR).withoutPassword.refreshTokenExpiresAt
        = (mkRegisteredUser hash newId tReg eR pR nR).refreshTokenExpiresAt
    ∧ out.refreshTokenExpiresAt = uU.refreshTokenExpiresAt :=
  ⟨by simp [findById, hne, hfind], rfl, rfl,
   by simp [login, hne2, hfindw, hcmp, hwid], rfl,
   by simp [register, hneR, hemailR, hnodupR, hlenR], rfl, rfl,
   updateUser_ok_keeps_expiry db db2 uid dto uU out hfindU hupd⟩

/-- Witness for `sanitization_partial` on `dbAnn`: profile lookup of `u1`,
login as `ann@example.com`, registration of `bob@example.com`, and a
rename of `u1` to `Annie`. -/
theorem sanitization_partial_witness :
    (dbAnn.find? (fun v => v.id == jsTrim "u1") = some uAnn)
    ∧ findById dbAnn "u1" = some uAnn.withoutPassword
    ∧ (login testCompare tenvB dbAnn "ann@example.com" "password123").2
        = .ok ⟨tenvB.newAccess, tenvB.newRefresh,
               (uAnn.withSession tenvB.newRefresh tenvB.newExpiry).withoutSensitive⟩
    ∧ (register testHash "u9" 7 dbAnn "bob@example.com" "password123" "Bob").2
        = .ok ⟨(mkRegisteredUser testHash "u9" 7 "bob@example.com" "password123" "Bob").withoutPassword⟩
    ∧ uAnnRenamed.withoutSensitive.refreshTokenExpiresAt = uAnn.refreshTokenExpiresAt := by
  have h := sanitization_partial dbAnn "u1" uAnn (by decide) (by decide)
    testCompare tenvB "ann@example.com" "password123" uAnn
    (by decide) (by decide) (by decide) (by decide)
    testHash "u9" 7 "bob@example.com" "password123" "Bob"
    (by decide) (by decide) (by decide) (by decide)
    "u1" ⟨none, some "Annie"⟩ (saveUser dbAnn uAnnRenamed)
    uAnn uAnnRenamed.withoutSensitive (by decide) rfl
  exact ⟨by decide, h.1, h.2.2.2.1, h.2.2.2.2.2.1, h.2.2.2.2.2.2.2.2⟩

end Auth
